import Mathlib

/-!
Verification of the cinema reservation backend
(`supabase/migrations/20251107170000_cinema_schema.sql`).

The development shallowly embeds the relational state (profiles,
reservations, attendance logs, screenings, movies), the stored routine
`validate_reservation_qr`, the `screening_stats` view, and the uniqueness
constraints of the `reservations` table, and proves the spec's claims
about them.

Conventions of the embedding:
* `uuid` columns are modelled as `Nat`; `timestamp with time zone`
  columns as `Nat`; nullable columns as `Option _`.
* A table is a list of rows; a failed `insert` returns `Except.error`
  with the violated constraint's name and leaves the table unchanged.
* `gen_random_uuid ()` for the inserted attendance log and `now ()` are
  nondeterministic inputs of the routine, passed as explicit arguments.
* Result messages are the exact Spanish strings of the migration.
-/

namespace Cinema

abbrev Uuid := Nat
abbrev Timestamp := Nat

/-- The `public.reservation_status` enum of the migration. -/
inductive ReservationStatus where
  | pending
  | confirmed
  | cancelled
  | checked_in
  | no_show
deriving DecidableEq, Repr

/-- A `public.profiles` row, restricted to the columns the migration
touches (`user_id`, and the `role` column it adds). -/
structure Profile where
  user_id : Uuid
  role : String
deriving DecidableEq, Repr

/-- A `public.movies` row. -/
structure Movie where
  id : Uuid
  title : String
  synopsis : Option String
  duration_minutes : Option Nat
  rating : Option String
  poster_url : Option String
  is_active : Bool
  created_at : Timestamp
  updated_at : Timestamp
deriving DecidableEq, Repr

/-- A `public.screenings` row. -/
structure Screening where
  id : Uuid
  movie_id : Uuid
  starts_at : Timestamp
  ends_at : Option Timestamp
  auditorium : String
  capacity : Nat
  notes : Option String
  created_at : Timestamp
  updated_at : Timestamp
deriving DecidableEq, Repr

/-- A `public.reservations` row. -/
structure Reservation where
  id : Uuid
  screening_id : Uuid
  user_id : Uuid
  status : ReservationStatus
  seat_label : Option String
  qr_token : String
  reserved_at : Timestamp
  created_at : Timestamp
  updated_at : Timestamp
deriving DecidableEq, Repr

/-- A `public.attendance_logs` row. -/
structure AttendanceLog where
  id : Uuid
  reservation_id : Uuid
  scanned_by : Option Uuid
  scanned_at : Timestamp
  created_at : Timestamp
deriving DecidableEq, Repr

/-- The composite type `public.qr_validation_result`.  Every attribute of
a composite value is nullable, hence the `Option` on the identifier and
status fields (the routine never returns a null message or flags). -/
structure QrValidationResult where
  reservation_id : Option Uuid
  screening_id : Option Uuid
  status : Option ReservationStatus
  message : String
  already_scanned : Bool
  is_valid : Bool
deriving DecidableEq, Repr

/-- The mutable relational state the validation routine reads and
writes. -/
structure DbState where
  profiles : List Profile
  reservations : List Reservation
  attendanceLogs : List AttendanceLog
deriving DecidableEq, Repr

/-- `public.current_user_is_admin ()`: true iff a profile row exists for
the current actor (`auth.uid ()`, possibly null) with role `admin`. -/
def current_user_is_admin (uid : Option Uuid) (profiles : List Profile) : Bool :=
  profiles.any fun p => some p.user_id == uid && p.role == "admin"

/-- Postgres `trim (text)` (`btrim` with its default set): strips leading
and trailing *space* characters only — not tabs or other whitespace. -/
def pgTrim (s : String) : String :=
  String.mk (((s.data.dropWhile (· == ' ')).reverse.dropWhile (· == ' ')).reverse)

def msgUnauthorized : String := "Solo personal autorizado puede validar códigos."
def msgInvalidQr : String := "Código QR inválido."
def msgNotFound : String := "No se encontró una reserva para este código."
def msgCancelled : String := "La reserva está cancelada y no puede registrarse asistencia."
def msgAlready : String := "Esta reserva ya fue validada previamente."
def msgSuccess : String := "Asistencia registrada correctamente."

/-- `coalesce (trim (p_token), '') = ''`: the guard of step 2 of the
routine, true for a null token and for a token that trims to empty. -/
def tokenIsBlank (p_token : Option String) : Bool :=
  ((p_token.map pgTrim).getD "") == ""

/-- The `select … where qr_token = p_token` lookup.  SQL equality with a
null token matches no row, which the `some _ == p_token` comparison
mirrors; `select into` takes the first matching row. -/
def lookupByToken (reservations : List Reservation) (p_token : Option String) :
    Option Reservation :=
  reservations.find? fun r => some r.qr_token == p_token

/-- The row update performed by step 6 of the routine:
`set status = 'checked_in', updated_at = now () where id = v.id`
(the `reservations_set_updated_at` trigger would set `updated_at` to the
same `now ()` anyway). -/
def checkInUpdate (rid : Uuid) (now : Timestamp) (q : Reservation) : Reservation :=
  if q.id == rid then { q with status := .checked_in, updated_at := now } else q

/-- `public.validate_reservation_qr (p_token, p_scanner)`.

Arguments beyond the SQL parameters: `uid` is `auth.uid ()` for the
calling session, `now` the transaction timestamp, and `newLogId` the
`gen_random_uuid ()` drawn for the inserted attendance log.  Returns the
`qr_validation_result` together with the state after the call. -/
def validate_reservation_qr (uid : Option Uuid) (p_token : Option String)
    (p_scanner : Option Uuid) (now : Timestamp) (newLogId : Uuid)
    (db : DbState) : QrValidationResult × DbState :=
  if current_user_is_admin uid db.profiles = false then
    (⟨none, none, some .cancelled, msgUnauthorized, false, false⟩, db)
  else if tokenIsBlank p_token then
    (⟨none, none, some .cancelled, msgInvalidQr, false, false⟩, db)
  else
    match lookupByToken db.reservations p_token with
    | none => (⟨none, none, some .cancelled, msgNotFound, false, false⟩, db)
    | some v =>
      if v.status = .cancelled then
        (⟨some v.id, some v.screening_id, some v.status, msgCancelled, false, false⟩, db)
      else if db.attendanceLogs.any (fun l => l.reservation_id == v.id) then
        (⟨some v.id, some v.screening_id, some v.status, msgAlready, true, false⟩, db)
      else
        let newLog : AttendanceLog :=
          { id := newLogId, reservation_id := v.id, scanned_by := p_scanner,
            scanned_at := now, created_at := now }
        let reservations' := db.reservations.map (checkInUpdate v.id now)
        let db' : DbState :=
          { db with reservations := reservations',
                    attendanceLogs := db.attendanceLogs ++ [newLog] }
        match reservations'.find? (fun q => q.id == v.id) with
        | some v2 =>
          (⟨some v2.id, some v2.screening_id, some v2.status, msgSuccess, false, true⟩, db')
        | none => (⟨none, none, none, msgSuccess, false, true⟩, db')

/-- Number of attendance-log rows recorded for a reservation. -/
def countLogs (logs : List AttendanceLog) (rid : Uuid) : Nat :=
  logs.countP fun l => l.reservation_id == rid

/-- SQL `nullif (a, b)` on numerics. -/
def sqlNullif (a b : ℚ) : Option ℚ :=
  if a = b then none else some a

/-- Postgres `round (x, 2)` on `numeric`: round half away from zero to
two decimal places. -/
def pgRound2 (q : ℚ) : ℚ :=
  if q < 0 then -(((⌊(-q) * 100 + 1/2⌋ : ℤ) : ℚ) / 100)
  else ((⌊q * 100 + 1/2⌋ : ℤ) : ℚ) / 100

/-- A row of the `public.screening_stats` view. -/
structure ScreeningStatRow where
  screening_id : Uuid
  movie_id : Uuid
  movie_title : Option String
  starts_at : Timestamp
  ends_at : Option Timestamp
  auditorium : String
  capacity : Nat
  total_reservations : Nat
  active_reservations : Nat
  checked_in_count : Nat
  occupancy_rate : ℚ
  attendance_rate : ℚ
  created_at : Timestamp
  updated_at : Timestamp
deriving DecidableEq, Repr

/-- The reservations the `left join … group by s.id` aggregates for one
screening. -/
def reservationsFor (reservations : List Reservation) (sid : Uuid) : List Reservation :=
  reservations.filter fun r => r.screening_id == sid

/-- The status list of the view's
`filter (where r.status in ('pending', 'confirmed', 'checked_in', 'no_show'))`. -/
def activeStatuses : List ReservationStatus :=
  [.pending, .confirmed, .checked_in, .no_show]

/-- One row of `public.screening_stats` for screening `s`. -/
def screeningStatRow (movies : List Movie) (reservations : List Reservation)
    (s : Screening) : ScreeningStatRow :=
  let rs := reservationsFor reservations s.id
  let total := rs.length
  let checked := (rs.filter fun r => r.status = .checked_in).length
  { screening_id := s.id
    movie_id := s.movie_id
    movie_title := (movies.find? fun m => m.id == s.movie_id).map (·.title)
    starts_at := s.starts_at
    ends_at := s.ends_at
    auditorium := s.auditorium
    capacity := s.capacity
    total_reservations := total
    active_reservations := (rs.filter fun r => r.status ∈ activeStatuses).length
    checked_in_count := checked
    occupancy_rate :=
      ((sqlNullif (s.capacity : ℚ) 0).map fun c => pgRound2 ((total : ℚ) / c * 100)).getD 0
    attendance_rate :=
      ((sqlNullif (total : ℚ) 0).map fun t => pgRound2 ((checked : ℚ) / t * 100)).getD 0
    created_at := s.created_at
    updated_at := s.updated_at }

/-- The `public.screening_stats` view: one aggregate row per screening. -/
def screening_stats (movies : List Movie) (screenings : List Screening)
    (reservations : List Reservation) : List ScreeningStatRow :=
  screenings.map (screeningStatRow movies reservations)

/-- `insert into public.reservations`: rejected with the name of the
violated constraint when the new row collides with an existing one on
`(screening_id, user_id)` or on `qr_token`; the table is extended
otherwise. -/
def insertReservation (reservations : List Reservation) (r : Reservation) :
    Except String (List Reservation) :=
  if reservations.any (fun q => q.screening_id == r.screening_id && q.user_id == r.user_id) then
    .error "reservations_user_screening_unique"
  else if reservations.any (fun q => q.qr_token == r.qr_token) then
    .error "reservations_qr_token_unique"
  else
    .ok (reservations ++ [r])

/-- The reservations table after an attempted insert: a rejected insert
leaves it unchanged. -/
def tableAfterInsert (reservations : List Reservation) (r : Reservation) :
    List Reservation :=
  match insertReservation reservations r with
  | .ok l => l
  | .error _ => reservations

/-! ### Concrete fixtures used by witnesses and counterexamples -/

def demoProfiles : List Profile :=
  [{ user_id := 1, role := "admin" }, { user_id := 2, role := "student" }]

def demoReservation : Reservation :=
  { id := 10, screening_id := 20, user_id := 2, status := .confirmed,
    seat_label := some "A1", qr_token := "tok123", reserved_at := 5,
    created_at := 5, updated_at := 5 }

def demoCancelled : Reservation :=
  { id := 11, screening_id := 20, user_id := 3, status := .cancelled,
    seat_label := none, qr_token := "tok456", reserved_at := 6,
    created_at := 6, updated_at := 6 }

def demoDb : DbState :=
  { profiles := demoProfiles
    reservations := [demoReservation, demoCancelled]
    attendanceLogs := [] }

/-- A second reservation for the `(screening 20, user 2)` pair already
held by `demoReservation`. -/
def demoDupReservation : Reservation :=
  { id := 12, screening_id := 20, user_id := 2, status := .confirmed,
    seat_label := none, qr_token := "tok789", reserved_at := 7,
    created_at := 7, updated_at := 7 }

def demoMovie : Movie :=
  { id := 5, title := "Dune Part 2", synopsis := none, duration_minutes := some 166,
    rating := none, poster_url := none, is_active := true, created_at := 0, updated_at := 0 }

def demoScreening : Screening :=
  { id := 20, movie_id := 5, starts_at := 100, ends_at := some 200, auditorium := "A",
    capacity := 50, notes := none, created_at := 0, updated_at := 0 }

/-- 30 reservations on screening 20: 10 checked in, 20 confirmed. -/
def demoStatsReservations : List Reservation :=
  ((List.range 10).map fun i =>
    { id := 100 + i, screening_id := 20, user_id := i, status := .checked_in,
      seat_label := none, qr_token := "q", reserved_at := 0, created_at := 0,
      updated_at := 0 }) ++
  ((List.range 20).map fun i =>
    { id := 200 + i, screening_id := 20, user_id := 10 + i, status := .confirmed,
      seat_label := none, qr_token := "q", reserved_at := 0, created_at := 0,
      updated_at := 0 })

/-! ### Branch lemmas for `validate_reservation_qr` -/

lemma checkInUpdate_qr_token (rid : Uuid) (now : Timestamp) (q : Reservation) :
    (checkInUpdate rid now q).qr_token = q.qr_token := by
  unfold checkInUpdate; split <;> rfl

lemma checkInUpdate_self (r : Reservation) (now : Timestamp) :
    checkInUpdate r.id now r = { r with status := .checked_in, updated_at := now } := by
  simp [checkInUpdate]

/-- Re-reading the updated row: in a table with pairwise-distinct
primary keys, the post-update lookup by id finds exactly the checked-in
copy of the validated reservation. -/
lemma find?_map_checkInUpdate (l : List Reservation) (r : Reservation) (now : Timestamp)
    (hU : l.Pairwise fun a b => a.id ≠ b.id) (hr : r ∈ l) :
    (l.map (checkInUpdate r.id now)).find? (fun q => q.id == r.id)
      = some { r with status := .checked_in, updated_at := now } := by
  induction l with
  | nil => cases hr
  | cons a l ih =>
    rw [List.pairwise_cons] at hU
    obtain ⟨ha, hU'⟩ := hU
    by_cases h : a.id = r.id
    · have hra : r = a := by
        rcases List.mem_cons.mp hr with h1 | h2
        · exact h1
        · exact absurd h (ha r h2)
      subst hra
      rw [List.map_cons, checkInUpdate_self]
      exact List.find?_cons_of_pos _ (by simp)
    · have hr' : r ∈ l := by
        rcases List.mem_cons.mp hr with h1 | h2
        · exact absurd (h1 ▸ rfl) h
        · exact h2
      rw [List.map_cons]
      have hupd : checkInUpdate r.id now a = a := by simp [checkInUpdate, h]
      rw [hupd, List.find?_cons_of_neg _ (by simp [h])]
      exact ih hU' hr'

/-- The check-in update touches neither `qr_token` nor the order of
rows, so a token lookup after the update finds the updated copy of what
it found before. -/
lemma lookupByToken_map_checkInUpdate (l : List Reservation) (rid : Uuid)
    (now : Timestamp) (tok : Option String) :
    lookupByToken (l.map (checkInUpdate rid now)) tok
      = (lookupByToken l tok).map (checkInUpdate rid now) := by
  unfold lookupByToken
  have hfun : ((fun r : Reservation => some r.qr_token == tok) ∘ checkInUpdate rid now)
      = fun r : Reservation => some r.qr_token == tok := by
    funext q
    simp [Function.comp, checkInUpdate_qr_token]
  rw [List.find?_map, hfun]

lemma validate_qr_eq_unauthorized (uid : Option Uuid) (p_token : Option String)
    (p_scanner : Option Uuid) (now : Timestamp) (newLogId : Uuid) (db : DbState)
    (hAdmin : current_user_is_admin uid db.profiles = false) :
    validate_reservation_qr uid p_token p_scanner now newLogId db
      = (⟨none, none, some .cancelled, msgUnauthorized, false, false⟩, db) := by
  simp [validate_reservation_qr, hAdmin]

lemma validate_qr_eq_blank (uid : Option Uuid) (p_token : Option String)
    (p_scanner : Option Uuid) (now : Timestamp) (newLogId : Uuid) (db : DbState)
    (hAdmin : current_user_is_admin uid db.profiles = true)
    (hTok : tokenIsBlank p_token = true) :
    validate_reservation_qr uid p_token p_scanner now newLogId db
      = (⟨none, none, some .cancelled, msgInvalidQr, false, false⟩, db) := by
  simp [validate_reservation_qr, hAdmin, hTok]

lemma validate_qr_eq_notFound (uid : Option Uuid) (p_token : Option String)
    (p_scanner : Option Uuid) (now : Timestamp) (newLogId : Uuid) (db : DbState)
    (hAdmin : current_user_is_admin uid db.profiles = true)
    (hTok : tokenIsBlank p_token = false)
    (hLookup : lookupByToken db.reservations p_token = none) :
    validate_reservation_qr uid p_token p_scanner now newLogId db
      = (⟨none, none, some .cancelled, msgNotFound, false, false⟩, db) := by
  simp [validate_reservation_qr, hAdmin, hTok, hLookup]

lemma validate_qr_eq_cancelled (uid : Option Uuid) (p_token : Option String)
    (p_scanner : Option Uuid) (now : Timestamp) (newLogId : Uuid) (db : DbState)
    (r : Reservation)
    (hAdmin : current_user_is_admin uid db.profiles = true)
    (hTok : tokenIsBlank p_token = false)
    (hLookup : lookupByToken db.reservations p_token = some r)
    (hStatus : r.status = .cancelled) :
    validate_reservation_qr uid p_token p_scanner now newLogId db
      = (⟨some r.id, some r.screening_id, some r.status, msgCancelled, false, false⟩, db) := by
  simp [validate_reservation_qr, hAdmin, hTok, hLookup, hStatus]

lemma validate_qr_eq_already (uid : Option Uuid) (p_token : Option String)
    (p_scanner : Option Uuid) (now : Timestamp) (newLogId : Uuid) (db : DbState)
    (r : Reservation)
    (hAdmin : current_user_is_admin uid db.profiles = true)
    (hTok : tokenIsBlank p_token = false)
    (hLookup : lookupByToken db.reservations p_token = some r)
    (hStatus : r.status ≠ .cancelled)
    (hLog : db.attendanceLogs.any (fun l => l.reservation_id == r.id) = true) :
    validate_reservation_qr uid p_token p_scanner now newLogId db
      = (⟨some r.id, some r.screening_id, some r.status, msgAlready, true, false⟩, db) := by
  simp [validate_reservation_qr, hAdmin, hTok, hLookup, hStatus, hLog]

/-- The successful branch: one log row appended, the reservation
checked in, the updated row re-read into the result. -/
lemma validate_qr_eq_success (uid : Option Uuid) (p_token : Option String)
    (p_scanner : Option Uuid) (now : Timestamp) (newLogId : Uuid) (db : DbState)
    (r : Reservation)
    (hAdmin : current_user_is_admin uid db.profiles = true)
    (hTok : tokenIsBlank p_token = false)
    (hUniq : db.reservations.Pairwise fun a b => a.id ≠ b.id)
    (hLookup : lookupByToken db.reservations p_token = some r)
    (hStatus : r.status ≠ .cancelled)
    (hNoLog : db.attendanceLogs.any (fun l => l.reservation_id == r.id) = false) :
    validate_reservation_qr uid p_token p_scanner now newLogId db
      = (⟨some r.id, some r.screening_id, some .checked_in, msgSuccess, false, true⟩,
         { db with
            reservations := db.reservations.map (checkInUpdate r.id now),
            attendanceLogs := db.attendanceLogs ++
              [⟨newLogId, r.id, p_scanner, now, now⟩] }) := by
  have hr : r ∈ db.reservations := List.mem_of_find?_eq_some hLookup
  simp only [validate_reservation_qr, hAdmin, hTok, hLookup, hStatus, hNoLog]
  rw [find?_map_checkInUpdate db.reservations r now hUniq hr]
  simp

/-- The state after a successful validation is a fixed point of further
validations with the same token: any later caller is either rejected as
unauthorized or told the reservation was already validated, and the
state never changes again. -/
lemma validate_qr_after_success (uid : Option Uuid) (p_token : Option String)
    (p_scanner : Option Uuid) (now : Timestamp) (newLogId : Uuid) (db : DbState)
    (r : Reservation)
    (hAdmin : current_user_is_admin uid db.profiles = true)
    (hTok : tokenIsBlank p_token = false)
    (hUniq : db.reservations.Pairwise fun a b => a.id ≠ b.id)
    (hLookup : lookupByToken db.reservations p_token = some r)
    (hStatus : r.status ≠ .cancelled)
    (hNoLog : db.attendanceLogs.any (fun l => l.reservation_id == r.id) = false) :
    ∀ uid' scanner' now' newId',
      (current_user_is_admin uid' db.profiles = true →
        validate_reservation_qr uid' p_token scanner' now' newId'
            (validate_reservation_qr uid p_token p_scanner now newLogId db).2
          = (⟨some r.id, some r.screening_id, some .checked_in, msgAlready, true, false⟩,
             (validate_reservation_qr uid p_token p_scanner now newLogId db).2))
      ∧ (validate_reservation_qr uid' p_token scanner' now' newId'
            (validate_reservation_qr uid p_token p_scanner now newLogId db).2).2
          = (validate_reservation_qr uid p_token p_scanner now newLogId db).2 := by
  intro uid' scanner' now' newId'
  have hs := validate_qr_eq_success uid p_token p_scanner now newLogId db r
    hAdmin hTok hUniq hLookup hStatus hNoLog
  rw [hs]
  set r' : Reservation := { r with status := .checked_in, updated_at := now } with hr'
  set s₁ : DbState :=
    { db with
        reservations := db.reservations.map (checkInUpdate r.id now),
        attendanceLogs := db.attendanceLogs ++
          [⟨newLogId, r.id, p_scanner, now, now⟩] } with hs₁
  have hprof : s₁.profiles = db.profiles := rfl
  have hlook2 : lookupByToken s₁.reservations p_token = some r' := by
    show lookupByToken (db.reservations.map (checkInUpdate r.id now)) p_token = some r'
    rw [lookupByToken_map_checkInUpdate, hLookup]
    simp only [Option.map_some']
    rw [checkInUpdate_self]
  have hstat2 : r'.status ≠ ReservationStatus.cancelled := by
    rw [hr']
    simp
  have hlog2 : s₁.attendanceLogs.any (fun l => l.reservation_id == r'.id) = true := by
    show (db.attendanceLogs ++ [(⟨newLogId, r.id, p_scanner, now, now⟩ : AttendanceLog)]).any
      (fun l => l.reservation_id == r'.id) = true
    rw [List.any_append]
    simp [hr']
  have hres : (⟨some r'.id, some r'.screening_id, some r'.status, msgAlready, true, false⟩ :
      QrValidationResult)
      = ⟨some r.id, some r.screening_id, some .checked_in, msgAlready, true, false⟩ := by
    rw [hr']
  constructor
  · intro hAdmin'
    rw [validate_qr_eq_already uid' p_token scanner' now' newId' s₁ r'
      (hprof ▸ hAdmin') hTok hlook2 hstat2 hlog2, hres]
  · by_cases hA : current_user_is_admin uid' db.profiles = true
    · rw [validate_qr_eq_already uid' p_token scanner' now' newId' s₁ r'
        (hprof ▸ hA) hTok hlook2 hstat2 hlog2]
    · rw [validate_qr_eq_unauthorized uid' p_token scanner' now' newId' s₁
        (hprof ▸ (Bool.not_eq_true _ ▸ hA : current_user_is_admin uid' db.profiles = false))]

/-- C1: a fresh, well-formed token scanned by an admin inserts exactly
one attendance log carrying the reservation reference and the scanning
actor, flips the reservation to `checked_in` with a refreshed
`updated_at`, and returns a valid result with the success message, both
identifiers, and status `checked_in`. -/
theorem validate_qr_fresh_scan_checks_in (uid : Option Uuid) (p_token : Option String)
    (p_scanner : Option Uuid) (now : Timestamp) (newLogId : Uuid) (db : DbState)
    (r : Reservation)
    (hAdmin : current_user_is_admin uid db.profiles = true)
    (hTok : tokenIsBlank p_token = false)
    (hUniq : db.reservations.Pairwise fun a b => a.id ≠ b.id)
    (hLookup : lookupByToken db.reservations p_token = some r)
    (hStatus : r.status ≠ .cancelled)
    (hNoLog : db.attendanceLogs.any (fun l => l.reservation_id == r.id) = false) :
    (validate_reservation_qr uid p_token p_scanner now newLogId db).2.attendanceLogs
        = db.attendanceLogs ++ [⟨newLogId, r.id, p_scanner, now, now⟩]
    ∧ (validate_reservation_qr uid p_token p_scanner now newLogId db).2.reservations
        = db.reservations.map (checkInUpdate r.id now)
    ∧ { r with status := ReservationStatus.checked_in, updated_at := now }
        ∈ (validate_reservation_qr uid p_token p_scanner now newLogId db).2.reservations
    ∧ (validate_reservation_qr uid p_token p_scanner now newLogId db).1
        = ⟨some r.id, some r.screening_id, some .checked_in, msgSuccess, false, true⟩ := by
  have hs := validate_qr_eq_success uid p_token p_scanner now newLogId db r
    hAdmin hTok hUniq hLookup hStatus hNoLog
  rw [hs]
  refine ⟨rfl, rfl, ?_, rfl⟩
  have hr : r ∈ db.reservations := List.mem_of_find?_eq_some hLookup
  have := List.mem_map_of_mem (checkInUpdate r.id now) hr
  rwa [checkInUpdate_self] at this

theorem validate_qr_fresh_scan_checks_in_witness :
    current_user_is_admin (some 1) demoDb.profiles = true
    ∧ (validate_reservation_qr (some 1) (some "tok123") (some 1) 50 99 demoDb).2.attendanceLogs
        = [⟨99, 10, some 1, 50, 50⟩]
    ∧ (validate_reservation_qr (some 1) (some "tok123") (some 1) 50 99 demoDb).1
        = ⟨some 10, some 20, some .checked_in, msgSuccess, false, true⟩ := by
  have h := validate_qr_fresh_scan_checks_in (some 1) (some "tok123") (some 1) 50 99 demoDb
    demoReservation (by decide) (by decide) (by decide) (by decide) (by decide) (by decide)
  exact ⟨by decide, by rw [h.1]; rfl, by rw [h.2.2.2]; rfl⟩

/-- C2: after a successful validation, a repeated admin scan of the same
token reports `already_scanned = true` and `is_valid = false` and adds
no second log; after any number of repeated calls (by any callers, any
timestamps) exactly one attendance log exists for the reservation. -/
theorem validate_qr_repeat_scan_idempotent (uid : Option Uuid) (p_token : Option String)
    (p_scanner : Option Uuid) (now : Timestamp) (newLogId : Uuid) (db : DbState)
    (r : Reservation)
    (hAdmin : current_user_is_admin uid db.profiles = true)
    (hTok : tokenIsBlank p_token = false)
    (hUniq : db.reservations.Pairwise fun a b => a.id ≠ b.id)
    (hLookup : lookupByToken db.reservations p_token = some r)
    (hStatus : r.status ≠ .cancelled)
    (hNoLog : db.attendanceLogs.any (fun l => l.reservation_id == r.id) = false) :
    countLogs (validate_reservation_qr uid p_token p_scanner now newLogId db).2.attendanceLogs
        r.id = 1
    ∧ (∀ uid' scanner' now' newId', current_user_is_admin uid' db.profiles = true →
        (validate_reservation_qr uid' p_token scanner' now' newId'
            (validate_reservation_qr uid p_token p_scanner now newLogId db).2).1.already_scanned
            = true
        ∧ (validate_reservation_qr uid' p_token scanner' now' newId'
            (validate_reservation_qr uid p_token p_scanner now newLogId db).2).1.is_valid
            = false
        ∧ (validate_reservation_qr uid' p_token scanner' now' newId'
            (validate_reservation_qr uid p_token p_scanner now newLogId db).2).2.attendanceLogs
            = (validate_reservation_qr uid p_token p_scanner now newLogId db).2.attendanceLogs)
    ∧ ∀ calls : List (Option Uuid × Option Uuid × Timestamp × Uuid),
        countLogs ((calls.foldl
            (fun s c => (validate_reservation_qr c.1 p_token c.2.1 c.2.2.1 c.2.2.2 s).2)
            (validate_reservation_qr uid p_token p_scanner now newLogId db).2)).attendanceLogs
          r.id = 1 := by
  have hfix := validate_qr_after_success uid p_token p_scanner now newLogId db r
    hAdmin hTok hUniq hLookup hStatus hNoLog
  have hs := validate_qr_eq_success uid p_token p_scanner now newLogId db r
    hAdmin hTok hUniq hLookup hStatus hNoLog
  have h0 : db.attendanceLogs.countP (fun l => l.reservation_id == r.id) = 0 := by
    rw [List.countP_eq_zero]
    simp only [List.any_eq_false] at hNoLog
    exact hNoLog
  have hcount : countLogs
      (validate_reservation_qr uid p_token p_scanner now newLogId db).2.attendanceLogs
      r.id = 1 := by
    rw [hs]
    show countLogs (db.attendanceLogs ++ [⟨newLogId, r.id, p_scanner, now, now⟩]) r.id = 1
    rw [countLogs, List.countP_append, h0]
    simp [List.countP_cons]
  refine ⟨hcount, ?_, ?_⟩
  · intro uid' scanner' now' newId' hAdmin'
    have h := (hfix uid' scanner' now' newId').1 hAdmin'
    rw [h]
    exact ⟨rfl, rfl, rfl⟩
  · intro calls
    have hfold : calls.foldl
        (fun s c => (validate_reservation_qr c.1 p_token c.2.1 c.2.2.1 c.2.2.2 s).2)
        (validate_reservation_qr uid p_token p_scanner now newLogId db).2
        = (validate_reservation_qr uid p_token p_scanner now newLogId db).2 := by
      induction calls with
      | nil => rfl
      | cons c cs ih =>
        rw [List.foldl_cons, (hfix c.1 c.2.1 c.2.2.1 c.2.2.2).2]
        exact ih
    rw [hfold]
    exact hcount

theorem validate_qr_repeat_scan_idempotent_witness :
    tokenIsBlank (some "tok123") = false
    ∧ countLogs
        (validate_reservation_qr (some 1) (some "tok123") (some 1) 50 99 demoDb).2.attendanceLogs
        10 = 1 := by
  refine ⟨by decide, ?_⟩
  exact (validate_qr_repeat_scan_idempotent (some 1) (some "tok123") (some 1) 50 99 demoDb
    demoReservation (by decide) (by decide) (by decide) (by decide) (by decide) (by decide)).1

/-- C3: the guard clauses fire in the strict order authorization,
token shape, existence, cancelled state, duplicate log.  A non-admin
caller gets the authorization result for every token and every database
state (so without any token lookup); a blank token is rejected even when
a reservation carries that exact token; a cancelled reservation is
reported as cancelled even when an attendance log exists for it; the
duplicate check is only reached past all earlier guards. -/
theorem validate_qr_guard_order :
    (∀ (uid : Option Uuid) (p_token : Option String) (p_scanner : Option Uuid)
        (now : Timestamp) (newLogId : Uuid) (db : DbState),
      current_user_is_admin uid db.profiles = false →
      validate_reservation_qr uid p_token p_scanner now newLogId db
        = (⟨none, none, some .cancelled, msgUnauthorized, false, false⟩, db))
    ∧ (∀ (uid : Option Uuid) (p_token : Option String) (p_scanner : Option Uuid)
        (now : Timestamp) (newLogId : Uuid) (db : DbState),
      current_user_is_admin uid db.profiles = true → tokenIsBlank p_token = true →
      validate_reservation_qr uid p_token p_scanner now newLogId db
        = (⟨none, none, some .cancelled, msgInvalidQr, false, false⟩, db))
    ∧ (∀ (uid : Option Uuid) (p_token : Option String) (p_scanner : Option Uuid)
        (now : Timestamp) (newLogId : Uuid) (db : DbState) (r : Reservation),
      current_user_is_admin uid db.profiles = true → tokenIsBlank p_token = false →
      lookupByToken db.reservations p_token = some r → r.status = .cancelled →
      validate_reservation_qr uid p_token p_scanner now newLogId db
        = (⟨some r.id, some r.screening_id, some r.status, msgCancelled, false, false⟩, db))
    ∧ (∀ (uid : Option Uuid) (p_token : Option String) (p_scanner : Option Uuid)
        (now : Timestamp) (newLogId : Uuid) (db : DbState) (r : Reservation),
      current_user_is_admin uid db.profiles = true → tokenIsBlank p_token = false →
      lookupByToken db.reservations p_token = some r → r.status ≠ .cancelled →
      db.attendanceLogs.any (fun l => l.reservation_id == r.id) = true →
      validate_reservation_qr uid p_token p_scanner now newLogId db
        = (⟨some r.id, some r.screening_id, some r.status, msgAlready, true, false⟩, db)) :=
  ⟨fun uid p_token p_scanner now newLogId db h =>
      validate_qr_eq_unauthorized uid p_token p_scanner now newLogId db h,
   fun uid p_token p_scanner now newLogId db h1 h2 =>
      validate_qr_eq_blank uid p_token p_scanner now newLogId db h1 h2,
   fun uid p_token p_scanner now newLogId db r h1 h2 h3 h4 =>
      validate_qr_eq_cancelled uid p_token p_scanner now newLogId db r h1 h2 h3 h4,
   fun uid p_token p_scanner now newLogId db r h1 h2 h3 h4 h5 =>
      validate_qr_eq_already uid p_token p_scanner now newLogId db r h1 h2 h3 h4 h5⟩

theorem validate_qr_guard_order_witness :
    current_user_is_admin (some 2) demoDb.profiles = false
    ∧ validate_reservation_qr (some 2) (some "tok123") none 50 99 demoDb
        = (⟨none, none, some .cancelled, msgUnauthorized, false, false⟩, demoDb) :=
  ⟨by decide,
   validate_qr_guard_order.1 (some 2) (some "tok123") none 50 99 demoDb (by decide)⟩

/-- C4: scanning the token of a cancelled reservation as an admin
changes nothing (the whole state, hence the reservation's status, is
returned untouched) and yields an invalid, not-already-scanned result
with the cancellation message, both identifiers, and the echoed
status. -/
theorem validate_qr_cancelled_reservation (uid : Option Uuid) (p_token : Option String)
    (p_scanner : Option Uuid) (now : Timestamp) (newLogId : Uuid) (db : DbState)
    (r : Reservation)
    (hAdmin : current_user_is_admin uid db.profiles = true)
    (hTok : tokenIsBlank p_token = false)
    (hLookup : lookupByToken db.reservations p_token = some r)
    (hCancel : r.status = .cancelled) :
    validate_reservation_qr uid p_token p_scanner now newLogId db
      = (⟨some r.id, some r.screening_id, some .cancelled, msgCancelled, false, false⟩, db) := by
  rw [validate_qr_eq_cancelled uid p_token p_scanner now newLogId db r
    hAdmin hTok hLookup hCancel, hCancel]

theorem validate_qr_cancelled_reservation_witness :
    demoCancelled.status = ReservationStatus.cancelled
    ∧ validate_reservation_qr (some 1) (some "tok456") (some 1) 50 99 demoDb
        = (⟨some 11, some 20, some .cancelled, msgCancelled, false, false⟩, demoDb) :=
  ⟨by decide,
   validate_qr_cancelled_reservation (some 1) (some "tok456") (some 1) 50 99 demoDb
     demoCancelled (by decide) (by decide) (by decide) (by decide)⟩

/-- C5 as stated is false: a token made only of spaces is a non-empty
string matching no reservation, yet the routine rejects it at the
token-shape guard with the invalid-QR message, not the not-found
message. -/
theorem validate_qr_unknown_token_counterexample :
    (" " : String) ≠ ""
    ∧ (∀ r ∈ demoDb.reservations, r.qr_token ≠ " ")
    ∧ (validate_reservation_qr (some 1) (some " ") none 50 99 demoDb).1.message = msgInvalidQr
    ∧ msgInvalidQr ≠ msgNotFound := by
  refine ⟨by decide, by decide, ?_, by decide⟩
  rw [validate_qr_eq_blank (some 1) (some " ") none 50 99 demoDb (by decide) (by decide)]

/-- C5 amended: for every token that is non-empty after trimming spaces
and matches no reservation's `qr_token`, an admin call returns
`is_valid = false`, `already_scanned = false`, null identifiers, and the
not-found message (and leaves the state untouched). -/
theorem validate_qr_unknown_token (uid : Option Uuid) (p_token : Option String)
    (p_scanner : Option Uuid) (now : Timestamp) (newLogId : Uuid) (db : DbState)
    (hAdmin : current_user_is_admin uid db.profiles = true)
    (hTok : tokenIsBlank p_token = false)
    (hLookup : lookupByToken db.reservations p_token = none) :
    validate_reservation_qr uid p_token p_scanner now newLogId db
      = (⟨none, none, some .cancelled, msgNotFound, false, false⟩, db) :=
  validate_qr_eq_notFound uid p_token p_scanner now newLogId db hAdmin hTok hLookup

theorem validate_qr_unknown_token_witness :
    lookupByToken demoDb.reservations (some "missing") = none
    ∧ validate_reservation_qr (some 1) (some "missing") none 50 99 demoDb
        = (⟨none, none, some .cancelled, msgNotFound, false, false⟩, demoDb) :=
  ⟨by decide,
   validate_qr_unknown_token (some 1) (some "missing") none 50 99 demoDb
     (by decide) (by decide) (by decide)⟩

/-- C6 as stated is false: Postgres `trim` strips only spaces, so the
whitespace-only token consisting of a single tab survives trimming, is
not caught by the invalid-QR guard, and reaches the reservation lookup,
which reports not-found instead. -/
theorem validate_qr_blank_token_counterexample :
    pgTrim "\t" = "\t"
    ∧ (validate_reservation_qr (some 1) (some "\t") none 50 99 demoDb).1.message = msgNotFound
    ∧ msgNotFound ≠ msgInvalidQr := by
  refine ⟨by decide, ?_, by decide⟩
  rw [validate_qr_eq_notFound (some 1) (some "\t") none 50 99 demoDb
    (by decide) (by decide) (by decide)]

/-- C6 amended: for every token that is null, or empty or made only of
space characters (so that it trims to the empty string), an admin call
returns the invalid-QR result with null identifiers and
`already_scanned = false`, for every database state alike — the
reservation lookup is never consulted. -/
theorem validate_qr_blank_token (uid : Option Uuid) (p_token : Option String)
    (p_scanner : Option Uuid) (now : Timestamp) (newLogId : Uuid) (db : DbState)
    (hAdmin : current_user_is_admin uid db.profiles = true)
    (hBlank : tokenIsBlank p_token = true) :
    validate_reservation_qr uid p_token p_scanner now newLogId db
      = (⟨none, none, some .cancelled, msgInvalidQr, false, false⟩, db) :=
  validate_qr_eq_blank uid p_token p_scanner now newLogId db hAdmin hBlank

theorem validate_qr_blank_token_witness :
    tokenIsBlank none = true
    ∧ tokenIsBlank (some "   ") = true
    ∧ validate_reservation_qr (some 1) none none 50 99 demoDb
        = (⟨none, none, some .cancelled, msgInvalidQr, false, false⟩, demoDb)
    ∧ validate_reservation_qr (some 1) (some "   ") none 50 99 demoDb
        = (⟨none, none, some .cancelled, msgInvalidQr, false, false⟩, demoDb) :=
  ⟨by decide, by decide,
   validate_qr_blank_token (some 1) none none 50 99 demoDb (by decide) (by decide),
   validate_qr_blank_token (some 1) (some "   ") none 50 99 demoDb (by decide) (by decide)⟩

/-- C10: in the unauthorized, blank-token and not-found outcomes the
`status` field of the result is the literal `'cancelled'` rather than
null, although no reservation was identified (both identifier fields
are null). -/
theorem validate_qr_sentinel_status :
    (∀ (uid : Option Uuid) (p_token : Option String) (p_scanner : Option Uuid)
        (now : Timestamp) (newLogId : Uuid) (db : DbState),
      current_user_is_admin uid db.profiles = false →
      (validate_reservation_qr uid p_token p_scanner now newLogId db).1.status
          = some .cancelled
      ∧ (validate_reservation_qr uid p_token p_scanner now newLogId db).1.reservation_id
          = none)
    ∧ (∀ (uid : Option Uuid) (p_token : Option String) (p_scanner : Option Uuid)
        (now : Timestamp) (newLogId : Uuid) (db : DbState),
      current_user_is_admin uid db.profiles = true → tokenIsBlank p_token = true →
      (validate_reservation_qr uid p_token p_scanner now newLogId db).1.status
          = some .cancelled
      ∧ (validate_reservation_qr uid p_token p_scanner now newLogId db).1.reservation_id
          = none)
    ∧ (∀ (uid : Option Uuid) (p_token : Option String) (p_scanner : Option Uuid)
        (now : Timestamp) (newLogId : Uuid) (db : DbState),
      current_user_is_admin uid db.profiles = true → tokenIsBlank p_token = false →
      lookupByToken db.reservations p_token = none →
      (validate_reservation_qr uid p_token p_scanner now newLogId db).1.status
          = some .cancelled
      ∧ (validate_reservation_qr uid p_token p_scanner now newLogId db).1.reservation_id
          = none) := by
  refine ⟨?_, ?_, ?_⟩
  · intro uid p_token p_scanner now newLogId db h
    rw [validate_qr_eq_unauthorized uid p_token p_scanner now newLogId db h]
    exact ⟨rfl, rfl⟩
  · intro uid p_token p_scanner now newLogId db h1 h2
    rw [validate_qr_eq_blank uid p_token p_scanner now newLogId db h1 h2]
    exact ⟨rfl, rfl⟩
  · intro uid p_token p_scanner now newLogId db h1 h2 h3
    rw [validate_qr_eq_notFound uid p_token p_scanner now newLogId db h1 h2 h3]
    exact ⟨rfl, rfl⟩

theorem validate_qr_sentinel_status_witness :
    current_user_is_admin none demoDb.profiles = false
    ∧ (validate_reservation_qr none (some "tok123") none 50 99 demoDb).1.status
        = some ReservationStatus.cancelled :=
  ⟨by decide,
   (validate_qr_sentinel_status.1 none (some "tok123") none 50 99 demoDb (by decide)).1⟩

/-! ### The `screening_stats` view -/

lemma screeningStatRow_occupancy_eq (movies : List Movie)
    (reservations : List Reservation) (s : Screening) :
    (screeningStatRow movies reservations s).occupancy_rate
      = if s.capacity = 0 then 0
        else pgRound2
          (((screeningStatRow movies reservations s).total_reservations : ℚ)
            / (s.capacity : ℚ) * 100) := by
  by_cases hc : s.capacity = 0
  · simp [screeningStatRow, sqlNullif, hc]
  · have hq : (s.capacity : ℚ) ≠ 0 := Nat.cast_ne_zero.mpr hc
    simp [screeningStatRow, sqlNullif, hc, hq]

lemma screeningStatRow_attendance_eq (movies : List Movie)
    (reservations : List Reservation) (s : Screening) :
    (screeningStatRow movies reservations s).attendance_rate
      = if (screeningStatRow movies reservations s).total_reservations = 0 then 0
        else pgRound2
          (((screeningStatRow movies reservations s).checked_in_count : ℚ)
            / ((screeningStatRow movies reservations s).total_reservations : ℚ) * 100) := by
  by_cases ht : (reservationsFor reservations s.id).length = 0
  · simp [screeningStatRow, sqlNullif, ht]
  · have hq : ((reservationsFor reservations s.id).length : ℚ) ≠ 0 := Nat.cast_ne_zero.mpr ht
    simp [screeningStatRow, sqlNullif, ht, hq]

/-- C7: the view's rates are the rounded percentages
`round ((total / capacity) * 100, 2)` and
`round ((checked_in / total) * 100, 2)`, resolving to `0` instead of a
division fault when the capacity or the reservation count is zero; on
the scenario screening (capacity 50, 30 reservations, 10 checked in)
they evaluate to `60.00` and `33.33`. -/
theorem screening_stats_rates :
    (∀ (movies : List Movie) (reservations : List Reservation) (s : Screening),
      (screeningStatRow movies reservations s).occupancy_rate
        = if s.capacity = 0 then 0
          else pgRound2
            (((screeningStatRow movies reservations s).total_reservations : ℚ)
              / (s.capacity : ℚ) * 100))
    ∧ (∀ (movies : List Movie) (reservations : List Reservation) (s : Screening),
      (screeningStatRow movies reservations s).attendance_rate
        = if (screeningStatRow movies reservations s).total_reservations = 0 then 0
          else pgRound2
            (((screeningStatRow movies reservations s).checked_in_count : ℚ)
              / ((screeningStatRow movies reservations s).total_reservations : ℚ) * 100))
    ∧ (screeningStatRow [demoMovie] demoStatsReservations demoScreening).total_reservations
        = 30
    ∧ (screeningStatRow [demoMovie] demoStatsReservations demoScreening).checked_in_count
        = 10
    ∧ (screeningStatRow [demoMovie] demoStatsReservations demoScreening).occupancy_rate
        = 60
    ∧ (screeningStatRow [demoMovie] demoStatsReservations demoScreening).attendance_rate
        = 3333 / 100 := by
  have h30 : (screeningStatRow [demoMovie] demoStatsReservations demoScreening).total_reservations
      = 30 := by decide
  have h10 : (screeningStatRow [demoMovie] demoStatsReservations demoScreening).checked_in_count
      = 10 := by decide
  refine ⟨screeningStatRow_occupancy_eq, screeningStatRow_attendance_eq, h30, h10, ?_, ?_⟩
  · rw [screeningStatRow_occupancy_eq, h30]
    norm_num [demoScreening, pgRound2]
  · rw [screeningStatRow_attendance_eq, h30, h10]
    norm_num [pgRound2]

lemma mem_activeStatuses_iff (st : ReservationStatus) :
    st ∈ activeStatuses ↔ st ≠ .cancelled := by
  cases st <;> decide

lemma filter_active_eq_filter_not_cancelled (l : List Reservation) :
    (l.filter fun r => r.status ∈ activeStatuses)
      = l.filter fun r => r.status ≠ .cancelled := by
  apply List.filter_congr
  intro r _
  cases hst : r.status <;> simp [activeStatuses, hst]

lemma length_filter_active_split (l : List Reservation) :
    l.length = (l.filter fun r => r.status ∈ activeStatuses).length
      + (l.filter fun r => r.status = .cancelled).length := by
  induction l with
  | nil => rfl
  | cons a l ih =>
    cases hst : a.status <;>
      simp [List.filter_cons, hst, activeStatuses, ih] <;> omega

/-- C8: a reservation counts as active exactly when its status is
`pending`, `confirmed`, `checked_in` or `no_show` — equivalently, when
it is not cancelled; cancelled rows remain in the total count, and the
checked-in count is exactly the number of `checked_in` rows. -/
theorem screening_stats_active_counts :
    (∀ st : ReservationStatus, st ∈ activeStatuses ↔ st ≠ .cancelled)
    ∧ (∀ (movies : List Movie) (reservations : List Reservation) (s : Screening),
      (screeningStatRow movies reservations s).active_reservations
        = ((reservationsFor reservations s.id).filter fun r => r.status ≠ .cancelled).length)
    ∧ (∀ (movies : List Movie) (reservations : List Reservation) (s : Screening),
      (screeningStatRow movies reservations s).total_reservations
        = (screeningStatRow movies reservations s).active_reservations
          + ((reservationsFor reservations s.id).filter fun r => r.status = .cancelled).length)
    ∧ (∀ (movies : List Movie) (reservations : List Reservation) (s : Screening),
      (screeningStatRow movies reservations s).checked_in_count
        = ((reservationsFor reservations s.id).filter fun r => r.status = .checked_in).length) := by
  refine ⟨mem_activeStatuses_iff, ?_, ?_, ?_⟩
  · intro movies reservations s
    show (List.filter _ (reservationsFor reservations s.id)).length = _
    rw [filter_active_eq_filter_not_cancelled]
  · intro movies reservations s
    exact length_filter_active_split (reservationsFor reservations s.id)
  · intro movies reservations s
    rfl

/-! ### Uniqueness of the `(screening_id, user_id)` pair -/

/-- C9: inserting a second reservation for a `(screening, user)` pair
already present trips the `reservations_user_screening_unique`
constraint and leaves the table unchanged. -/
theorem reservations_pair_unique_insert (db : List Reservation) (r₀ r : Reservation)
    (h₀ : r₀ ∈ db) (hs : r.screening_id = r₀.screening_id)
    (hu : r.user_id = r₀.user_id) :
    insertReservation db r = .error "reservations_user_screening_unique"
    ∧ tableAfterInsert db r = db := by
  have hAny : db.any (fun q => q.screening_id == r.screening_id
      && q.user_id == r.user_id) = true :=
    List.any_eq_true.mpr ⟨r₀, h₀, by simp [hs, hu]⟩
  exact ⟨by simp [insertReservation, hAny],
    by simp [tableAfterInsert, insertReservation, hAny]⟩

theorem reservations_pair_unique_insert_witness :
    demoReservation ∈ demoDb.reservations
    ∧ insertReservation demoDb.reservations demoDupReservation
        = .error "reservations_user_screening_unique"
    ∧ tableAfterInsert demoDb.reservations demoDupReservation = demoDb.reservations := by
  have h := reservations_pair_unique_insert demoDb.reservations demoReservation
    demoDupReservation (by decide) (by decide) (by decide)
  exact ⟨by decide, h.1, h.2⟩

end Cinema
